import Mathlib

/-!
Verification of the `portalocker` Redis pubsub lock
(`src/portalocker/redis.py`, `src/portalocker/exceptions.py`).

We shallow-embed `RedisLock` as a pure state machine. External Redis
behaviour (what `pubsub.get_message` returns and the receiver count
returned by `connection.publish`) is supplied by an explicit `Oracle`
argument for each attempt. Observable side effects (subscribe,
unsubscribe, publish, thread start/stop, connection close, sleeps) are
collected in traces. Python `time.time()` values are modelled as
rationals supplied per loop iteration; `None`-able floats become
`Option ℚ`.

A call that would raise `AttributeError` by dereferencing a `None`
connection is modelled as returning `none` (`Option`-failure).
The JSON payloads `json.dumps(dict(action=...))` are modelled by their
`action` field, the only part the protocol interprets.
-/

namespace Portalocker

/-- A pubsub message as far as `_try_acquire` inspects it: only the
`type` field is read (`message` dict key `type`, e.g. the value
`subscribe` for the subscription-confirmation event). -/
structure Message where
  type : String
deriving DecidableEq, Repr

/-- Environment answers for one acquisition attempt: what
`pubsub.get_message(timeout=self.unavailable_timeout)` returns (`none`
models Python `None` on timeout) and the receiver count that
`connection.publish` would report. -/
structure Oracle where
  message : Option Message
  receivers : Nat
deriving DecidableEq, Repr

/-- Observable side effects of lock operations. -/
inductive Effect where
  | subscribe (channel : String)
  | unsubscribe (channel : String)
  | publish (channel : String) (action : String)
  | threadStart
  | threadStop
  | connClose
  | sleep (seconds : ℚ)
deriving DecidableEq, Repr

/-- The mutable state of one `RedisLock` instance. `thread`,
`connection` and `pubsub` track presence of the Python objects
(`None` vs. an object). Configuration fields `timeout`,
`check_interval` and `fail_when_locked` are stored by
`utils.LockBase.__init__` (that file is not part of the sources;
per the spec's Generic Lock Contract it stores the constructor-level
configuration fields, with `timeout = none` meaning unbounded). -/
structure LockState where
  channel : String
  close_connection : Bool
  thread : Option Unit
  connection : Option Unit
  pubsub : Option Unit
  timeout : Option ℚ
  check_interval : ℚ
  fail_when_locked : Bool
  thread_sleep_time : ℚ
  unavailable_timeout : ℚ
deriving DecidableEq, Repr

/-- `RedisLock.__init__`: `close_connection = not connection`,
`thread = None`, the connection is created when none is supplied
(hence afterwards always present), and `pubsub = connection.pubsub()`. -/
def mkRedisLock (channel : String) (connection : Option Unit)
    (timeout : Option ℚ) (check_interval : ℚ) (fail_when_locked : Bool)
    (thread_sleep_time : ℚ) (unavailable_timeout : ℚ) : LockState :=
  { channel := channel
    close_connection := connection.isNone
    thread := none
    connection := some ()
    pubsub := some ()
    timeout := timeout
    check_interval := check_interval
    fail_when_locked := fail_when_locked
    thread_sleep_time := thread_sleep_time
    unavailable_timeout := unavailable_timeout }

/-- The acceptance test of `_try_acquire`:
`message is None or message['type'] == 'subscribe'`. -/
def accepts : Option Message → Bool
  | none => true
  | some m => m.type == "subscribe"

/-- `if self.pubsub is None: self.pubsub = self.connection.pubsub()`.
Returns `none` when `self.connection` is `None` (AttributeError). -/
def ensurePubsub (s : LockState) : Option LockState :=
  match s.pubsub with
  | some _ => some s
  | none =>
    match s.connection with
    | none => none
    | some _ => some { s with pubsub := some () }

/-- `RedisLock._start_keep_alive_thread`: start a worker thread only
when none is running. -/
def startKeepAliveThread (s : LockState) : LockState :=
  match s.thread with
  | none => { s with thread := some () }
  | some _ => s

/-- `RedisLock._try_acquire`. Returns `none` on an unhandled
`AttributeError` (a `None` connection dereferenced), otherwise
`some (result, state, trace)`. Note that the `finally:` block runs
`self.pubsub.unsubscribe(self.channel)` on every path, including the
successful `return True`. -/
def tryAcquire (s : LockState) (o : Oracle) :
    Option (Bool × LockState × List Effect) :=
  match ensurePubsub s with
  | none => none
  | some s1 =>
    if accepts o.message then
      match s1.connection with
      | none => none
      | some _ =>
        if o.receivers = 1 then
          some (true, startKeepAliveThread s1,
            Effect.subscribe s1.channel ::
              Effect.publish s1.channel "acquire" ::
                (if s1.thread = none then
                  [Effect.threadStart, Effect.unsubscribe s1.channel]
                 else [Effect.unsubscribe s1.channel]))
        else
          some (false, s1,
            [Effect.subscribe s1.channel,
             Effect.publish s1.channel "acquire",
             Effect.unsubscribe s1.channel])
    else
      some (false, s1,
        [Effect.subscribe s1.channel, Effect.unsubscribe s1.channel])

/-- `RedisLock.release`. Every step is guarded on presence, so the
function is total (never raises). -/
def release (s : LockState) : LockState × List Effect :=
  let p1 : LockState × List Effect :=
    match s.thread with
    | some _ => ({ s with thread := none }, [Effect.threadStop])
    | none => (s, [])
  let s1 := p1.1
  let p2 : LockState × List Effect :=
    match s1.pubsub with
    | some _ => ({ s1 with pubsub := none }, [Effect.unsubscribe s1.channel])
    | none => (s1, [])
  let s2 := p2.1
  let p3 : LockState × List Effect :=
    match s2.connection with
    | none => (s2, [])
    | some _ =>
      if s2.close_connection then
        ({ s2 with connection := none },
         [Effect.publish s2.channel "release", Effect.connClose])
      else
        (s2, [Effect.publish s2.channel "release"])
  (p3.1, p1.2 ++ p2.2 ++ p3.2)

/-- One iteration of the `acquire` retry loop consumes one `Step`:
the oracle for the `_try_acquire` call and the `time.time()` value
observed at the timeout check of that iteration. -/
structure Step where
  oracle : Oracle
  now : ℚ
deriving DecidableEq, Repr

/-- `timeout is not None and time.time() - start_time > timeout`. -/
def timeoutExpired (timeout : Option ℚ) (start now : ℚ) : Bool :=
  match timeout with
  | none => false
  | some limit => decide (now - start > limit)

/-- How a run of the `acquire` loop ends. `failedLock` is
`LockException("Failed to acquire lock")`, `timedOut` is
`LockException("Timeout while acquiring lock")`, `crashed` is an
unhandled error from `_try_acquire`, and `fuelOut` means the modelled
step list was exhausted with the loop still running. -/
inductive AcquireOutcome where
  | success
  | failedLock
  | timedOut
  | crashed
  | fuelOut
deriving DecidableEq, Repr

/-- The `while True` loop of `RedisLock.acquire`, with the effective
(already coalesced) parameters. -/
def acquireWith (timeout : Option ℚ) (check_interval : ℚ)
    (fail_when_locked : Bool) (start : ℚ) :
    LockState → List Step → AcquireOutcome × LockState × List Effect
  | s, [] => (AcquireOutcome.fuelOut, s, [])
  | s, step :: rest =>
    match tryAcquire s step.oracle with
    | none => (AcquireOutcome.crashed, s, [])
    | some (true, s2, tr) => (AcquireOutcome.success, s2, tr)
    | some (false, s2, tr) =>
      if fail_when_locked then (AcquireOutcome.failedLock, s2, tr)
      else if timeoutExpired timeout start step.now then
        (AcquireOutcome.timedOut, s2, tr)
      else
        let r := acquireWith timeout check_interval fail_when_locked start s2 rest
        (r.1, r.2.1, tr ++ Effect.sleep check_interval :: r.2.2)

/-- `RedisLock.acquire`: arguments left as `None` fall back to the
constructor-configured values, then the retry loop runs. On success
the Python code returns `self`; here the success outcome carries the
lock's own (updated) state as the handle. -/
def acquire (s : LockState) (timeout : Option ℚ) (check_interval : Option ℚ)
    (fail_when_locked : Option Bool) (start : ℚ) (steps : List Step) :
    AcquireOutcome × LockState × List Effect :=
  acquireWith (timeout.orElse fun _ => s.timeout)
    (check_interval.getD s.check_interval)
    (fail_when_locked.getD s.fail_when_locked) start s steps

/-- `RedisLock.__enter__`: `return self.acquire()`. -/
def enter (s : LockState) (start : ℚ) (steps : List Step) :
    AcquireOutcome × LockState × List Effect :=
  acquire s none none none start steps

/-- `RedisLock.__exit__`: calls `self.release()` unconditionally. -/
def exitLock (s : LockState) : LockState :=
  (release s).1

/-! ### Concrete instances used by witnesses and counterexamples -/

/-- A lock constructed without a supplied connection (it creates and
owns its own connection). -/
def lockOwned : LockState := mkRedisLock "chan" none none 1 false (1/10) 1

/-- A lock constructed with a caller-supplied connection. -/
def lockBorrowed : LockState :=
  mkRedisLock "chan" (some ()) none 1 false (1/10) 1

/-- Oracle for an uncontended attempt: `get_message` times out and the
publish reaches exactly one receiver. -/
def oracleFree : Oracle := ⟨none, 1⟩

/-- Oracle for a contended attempt: no pending message but the publish
reaches two receivers. -/
def oracleBusy : Oracle := ⟨none, 2⟩

/-! ### Operation sequences and the spec's abstract state machine -/

/-- The spec's abstract lock state: a lock is in exactly one of the
states Released and Held. -/
inductive SpecState where
  | released
  | held
deriving DecidableEq, Repr

/-- One operation on a single `RedisLock` instance. -/
inductive LockOp where
  | tryAcq (o : Oracle)
  | acq (timeout : Option ℚ) (check_interval : Option ℚ)
      (fail_when_locked : Option Bool) (start : ℚ) (steps : List Step)
  | rel
deriving Repr

/-- The concrete state after one operation (a crashing `_try_acquire`
propagates its exception and leaves the state it had crashed from). -/
def opNext (s : LockState) : LockOp → LockState
  | LockOp.tryAcq o =>
    match tryAcquire s o with
    | none => s
    | some (_, s2, _) => s2
  | LockOp.acq tio ci fwl start steps => (acquire s tio ci fwl start steps).2.1
  | LockOp.rel => (release s).1

/-- The abstract state machine with the transition the code actually
implements: a successful attempt moves to Held, release moves to
Released, and a failed (or crashing) attempt leaves the abstract state
unchanged. -/
def ghostNext (g : SpecState) (s : LockState) : LockOp → SpecState
  | LockOp.tryAcq o =>
    match tryAcquire s o with
    | some (true, _, _) => SpecState.held
    | _ => g
  | LockOp.acq tio ci fwl start steps =>
    match (acquire s tio ci fwl start steps).1 with
    | AcquireOutcome.success => SpecState.held
    | _ => g
  | LockOp.rel => SpecState.released

/-- The abstract state machine exactly as the claim words it: a
successful attempt moves to Held, release moves to Released, and every
failed acquisition attempt leaves the lock in Released. (A crashing
attempt completes no attempt and keeps the current abstract state; an
`acquire` call is classified by its outcome — `failedLock`, `timedOut`
and a non-trivial `fuelOut` end in a failed attempt.) -/
def claimGhostNext (g : SpecState) (s : LockState) : LockOp → SpecState
  | LockOp.tryAcq o =>
    match tryAcquire s o with
    | some (true, _, _) => SpecState.held
    | some (false, _, _) => SpecState.released
    | none => g
  | LockOp.acq tio ci fwl start steps =>
    match (acquire s tio ci fwl start steps).1 with
    | AcquireOutcome.success => SpecState.held
    | AcquireOutcome.failedLock => SpecState.released
    | AcquireOutcome.timedOut => SpecState.released
    | AcquireOutcome.crashed => g
    | AcquireOutcome.fuelOut => if steps.isEmpty then g else SpecState.released
  | LockOp.rel => SpecState.released

/-- Run a sequence of operations, tracking the concrete state and the
abstract state machine the code implements. -/
def runOps : LockState → SpecState → List LockOp → LockState × SpecState
  | s, g, [] => (s, g)
  | s, g, op :: ops => runOps (opNext s op) (ghostNext g s op) ops

/-- Run a sequence of operations, tracking the concrete state and the
abstract state machine asserted by the claim. -/
def claimRun : LockState → SpecState → List LockOp → LockState × SpecState
  | s, g, [] => (s, g)
  | s, g, op :: ops => claimRun (opNext s op) (claimGhostNext g s op) ops

/-! ### Helper lemmas about `_try_acquire` -/

theorem ensurePubsub_fields {s s1 : LockState}
    (h : ensurePubsub s = some s1) :
    s1.channel = s.channel ∧ s1.thread = s.thread ∧
      s1.connection = s.connection ∧
      s1.close_connection = s.close_connection ∧ s1.pubsub = some () := by
  unfold ensurePubsub at h
  cases hp : s.pubsub with
  | some u => rw [hp] at h; cases h; cases u; simp [hp]
  | none =>
    rw [hp] at h
    cases hc : s.connection with
    | none => rw [hc] at h; cases h
    | some u => rw [hc] at h; cases h; simp

theorem ensurePubsub_isSome {s : LockState} (h : s.connection = some ()) :
    ∃ s1, ensurePubsub s = some s1 := by
  unfold ensurePubsub
  cases hp : s.pubsub with
  | some u => exact ⟨s, rfl⟩
  | none => rw [h]; exact ⟨_, rfl⟩

/-- Inversion principle for `_try_acquire`: a non-crashing run went
through exactly one of the three return points of the Python code. -/
theorem tryAcquire_inv {s s2 : LockState} {o : Oracle} {b : Bool}
    {tr : List Effect} (h : tryAcquire s o = some (b, s2, tr)) :
    ∃ s1, ensurePubsub s = some s1 ∧
      ((b = true ∧ accepts o.message = true ∧ o.receivers = 1 ∧
          s1.connection = some () ∧ s2 = startKeepAliveThread s1 ∧
          tr = Effect.subscribe s1.channel ::
            Effect.publish s1.channel "acquire" ::
              (if s1.thread = none then
                [Effect.threadStart, Effect.unsubscribe s1.channel]
               else [Effect.unsubscribe s1.channel])) ∨
        (b = false ∧ s2 = s1 ∧
          (tr = [Effect.subscribe s1.channel,
                 Effect.publish s1.channel "acquire",
                 Effect.unsubscribe s1.channel] ∨
           tr = [Effect.subscribe s1.channel,
                 Effect.unsubscribe s1.channel]))) := by
  unfold tryAcquire at h
  split at h
  · exact Option.noConfusion h
  · rename_i s1 heq
    refine ⟨s1, heq, ?_⟩
    split at h
    · rename_i ha
      split at h
      · exact Option.noConfusion h
      · rename_i u heqc
        split at h
        · rename_i hr
          simp only [Option.some.injEq, Prod.mk.injEq] at h
          obtain ⟨hb, hs, htr⟩ := h
          cases u
          exact Or.inl ⟨hb.symm, ha, hr, heqc, hs.symm, htr.symm⟩
        · rename_i hr
          simp only [Option.some.injEq, Prod.mk.injEq] at h
          obtain ⟨hb, hs, htr⟩ := h
          exact Or.inr ⟨hb.symm, hs.symm, Or.inl htr.symm⟩
    · rename_i ha
      simp only [Option.some.injEq, Prod.mk.injEq] at h
      obtain ⟨hb, hs, htr⟩ := h
      exact Or.inr ⟨hb.symm, hs.symm, Or.inr htr.symm⟩

theorem startKeepAliveThread_thread (s : LockState) :
    (startKeepAliveThread s).thread = some () := by
  unfold startKeepAliveThread
  cases ht : s.thread with
  | none => simp
  | some v => cases v; simp only [ht]

theorem startKeepAliveThread_connection (s : LockState) :
    (startKeepAliveThread s).connection = s.connection := by
  unfold startKeepAliveThread
  cases ht : s.thread with
  | none => simp
  | some v => simp

/-- On a failed attempt the state is only changed by recreating the
pubsub object: all other fields are untouched. -/
theorem tryAcquire_false_fields {s s2 : LockState} {o : Oracle}
    {tr : List Effect} (h : tryAcquire s o = some (false, s2, tr)) :
    s2.channel = s.channel ∧ s2.thread = s.thread ∧
      s2.connection = s.connection ∧
      s2.close_connection = s.close_connection := by
  obtain ⟨s1, heq, hcase⟩ := tryAcquire_inv h
  obtain ⟨h1, h2, h3, h4, h5⟩ := ensurePubsub_fields heq
  rcases hcase with ⟨hb, -⟩ | ⟨-, hs, -⟩
  · exact Bool.noConfusion hb
  · subst hs; exact ⟨h1, h2, h3, h4⟩

/-- On a successful attempt the worker thread handle is set. -/
theorem tryAcquire_true_thread {s s2 : LockState} {o : Oracle}
    {tr : List Effect} (h : tryAcquire s o = some (true, s2, tr)) :
    s2.thread = some () := by
  obtain ⟨s1, heq, hcase⟩ := tryAcquire_inv h
  rcases hcase with ⟨-, -, -, -, hs, -⟩ | ⟨hb, -⟩
  · subst hs; exact startKeepAliveThread_thread s1
  · exact Bool.noConfusion hb

/-- A successful attempt preserves the connection field. -/
theorem tryAcquire_true_connection {s s2 : LockState} {o : Oracle}
    {tr : List Effect} (h : tryAcquire s o = some (true, s2, tr)) :
    s2.connection = s.connection := by
  obtain ⟨s1, heq, hcase⟩ := tryAcquire_inv h
  obtain ⟨h1, h2, h3, h4, h5⟩ := ensurePubsub_fields heq
  rcases hcase with ⟨-, -, -, -, hs, -⟩ | ⟨hb, -⟩
  · subst hs; exact (startKeepAliveThread_connection s1).trans h3
  · exact Bool.noConfusion hb

/-- `_try_acquire` never sleeps: no `sleep` effect occurs in its trace. -/
theorem tryAcquire_no_sleep {s s2 : LockState} {o : Oracle} {b : Bool}
    {tr : List Effect} (h : tryAcquire s o = some (b, s2, tr)) :
    ∀ q : ℚ, Effect.sleep q ∉ tr := by
  intro q
  obtain ⟨s1, heq, hcase⟩ := tryAcquire_inv h
  rcases hcase with ⟨-, -, -, -, -, htr⟩ | ⟨-, -, htr | htr⟩ <;> subst htr
  · cases ht : s1.thread with
    | none => simp [ht]
    | some v => simp [ht]
  · simp
  · simp

/-- A successful attempt is possible exactly when the acceptance test
passes and the receiver count is 1, given a live connection. -/
theorem tryAcquire_success_eval {s : LockState} {o : Oracle}
    (h : s.connection = some ()) (ha : accepts o.message = true)
    (hr : o.receivers = 1) :
    ∃ s2 tr, tryAcquire s o = some (true, s2, tr) := by
  obtain ⟨s1, heq⟩ := ensurePubsub_isSome h
  obtain ⟨h1, h2, h3, h4, h5⟩ := ensurePubsub_fields heq
  have hc : s1.connection = some () := h3.trans h
  refine ⟨startKeepAliveThread s1,
    Effect.subscribe s1.channel ::
      Effect.publish s1.channel "acquire" ::
        (if s1.thread = none then
          [Effect.threadStart, Effect.unsubscribe s1.channel]
         else [Effect.unsubscribe s1.channel]), ?_⟩
  unfold tryAcquire
  rw [heq]
  simp only [ha, hc, hr, if_true]

/-! ### C1 -/

/-- C1: a single acquisition attempt (`_try_acquire`) succeeds if and
only if the acceptance test passes (the message read within
`unavailable_timeout` is either absent or the subscription-confirmation
event) and the publish of the "acquire" notification returns a receiver
count equal to exactly 1; any other pending message, or any receiver
count other than 1, makes the attempt fail. -/
theorem C1_try_acquire_success_iff (s : LockState) (o : Oracle)
    (h : s.connection = some ()) :
    (∃ s2 tr, tryAcquire s o = some (true, s2, tr)) ↔
      ((o.message = none ∨
          ∃ m, o.message = some m ∧ m.type = "subscribe") ∧
        o.receivers = 1) := by
  constructor
  · rintro ⟨s2, tr, hacq⟩
    obtain ⟨s1, heq, hcase⟩ := tryAcquire_inv hacq
    rcases hcase with ⟨-, ha, hr, -, -, -⟩ | ⟨hb, -⟩
    · refine ⟨?_, hr⟩
      cases hm : o.message with
      | none => exact Or.inl rfl
      | some m =>
        rw [hm] at ha
        simp only [accepts, beq_iff_eq] at ha
        exact Or.inr ⟨m, rfl, ha⟩
    · exact Bool.noConfusion hb
  · rintro ⟨ha, hr⟩
    refine tryAcquire_success_eval h ?_ hr
    rcases ha with hnone | ⟨m, hm, hty⟩
    · simp [accepts, hnone]
    · simp [accepts, hm, hty]

/-- Witness for C1: a freshly constructed lock with a live connection,
an uncontended oracle, and the resulting successful attempt. -/
theorem C1_witness :
    ∃ s2 tr, tryAcquire lockBorrowed oracleFree = some (true, s2, tr) :=
  (C1_try_acquire_success_iff lockBorrowed oracleFree rfl).mpr
    ⟨Or.inl rfl, rfl⟩

/-! ### C2 -/

/-- C2 (evaluation at the failing input): on a successful attempt the
`finally:` block of `_try_acquire` still runs
`self.pubsub.unsubscribe(self.channel)`, so the success trace ends with
an `unsubscribe` — the subscription is not left open, contradicting the
claim that on success the subscription becomes the basis of lock
possession. The failure half of the claim does hold (failure traces end
with `unsubscribe` too), but the success half is violated. -/
theorem C2_success_still_unsubscribes :
    tryAcquire lockBorrowed oracleFree =
      some (true, { lockBorrowed with thread := some () },
        [Effect.subscribe "chan", Effect.publish "chan" "acquire",
         Effect.threadStart, Effect.unsubscribe "chan"]) := rfl

/-! ### C4 -/

/-- C4: with `fail_when_locked` true, a failed first attempt makes
`acquire` raise `LockException("Failed to acquire lock")` immediately:
the outcome is decided on that very first attempt, for every `timeout`
and every current time (so before and independent of any timeout
check), with no sleep in the trace and no use of the remaining steps. -/
theorem C4_fail_when_locked_immediate (s s2 : LockState) (tr : List Effect)
    (o : Oracle) (t start : ℚ) (rest : List Step) (timeout : Option ℚ)
    (ci : ℚ) (h : tryAcquire s o = some (false, s2, tr)) :
    acquireWith timeout ci true start s (⟨o, t⟩ :: rest) =
      (AcquireOutcome.failedLock, s2, tr) ∧
      ∀ q : ℚ, Effect.sleep q ∉ tr := by
  constructor
  · simp [acquireWith, h]
  · exact tryAcquire_no_sleep h

/-- Witness for C4: a contended attempt (two receivers) with
`fail_when_locked` and a current time far past the timeout still
reports `failedLock`, not `timedOut`, and retries nothing. -/
theorem C4_witness :
    acquireWith (some 5) 1 true 0 lockBorrowed [⟨oracleBusy, 100⟩] =
      (AcquireOutcome.failedLock, lockBorrowed,
        [Effect.subscribe "chan", Effect.publish "chan" "acquire",
         Effect.unsubscribe "chan"]) :=
  (C4_fail_when_locked_immediate lockBorrowed lockBorrowed
    [Effect.subscribe "chan", Effect.publish "chan" "acquire",
     Effect.unsubscribe "chan"] oracleBusy 100 0 [] (some 5) 1 rfl).1

/-! ### C5 -/

/-- C5: one iteration of the retry loop with `fail_when_locked` false.
The "timeout acquiring lock" error is raised after a failed attempt
exactly when `timeout` is bounded (`some limit`) and the elapsed time
exceeds it; otherwise the loop sleeps `check_interval` (a fixed
interval) and retries on the remaining steps; a successful attempt
returns the handle. -/
theorem C5_retry_loop_step (s s2 : LockState) (tr : List Effect)
    (o : Oracle) (t start : ℚ) (rest : List Step) (timeout : Option ℚ)
    (ci : ℚ) :
    (timeoutExpired timeout start t = true ↔
        ∃ limit, timeout = some limit ∧ t - start > limit) ∧
    (tryAcquire s o = some (false, s2, tr) →
      (timeoutExpired timeout start t = true →
        acquireWith timeout ci false start s (⟨o, t⟩ :: rest) =
          (AcquireOutcome.timedOut, s2, tr)) ∧
      (timeoutExpired timeout start t = false →
        acquireWith timeout ci false start s (⟨o, t⟩ :: rest) =
          ((acquireWith timeout ci false start s2 rest).1,
           (acquireWith timeout ci false start s2 rest).2.1,
           tr ++ Effect.sleep ci ::
             (acquireWith timeout ci false start s2 rest).2.2))) ∧
    (tryAcquire s o = some (true, s2, tr) →
      acquireWith timeout ci false start s (⟨o, t⟩ :: rest) =
        (AcquireOutcome.success, s2, tr)) := by
  refine ⟨?_, ?_, ?_⟩
  · cases timeout with
    | none => simp [timeoutExpired]
    | some limit => simp [timeoutExpired]
  · intro h
    constructor
    · intro hexp
      simp [acquireWith, h, hexp]
    · intro hexp
      simp [acquireWith, h, hexp]
  · intro h
    simp [acquireWith, h]

/-- Witness for C5: a contended attempt at time 10 with a 5-second
timeout recorded from start 0 raises the timeout error. -/
theorem C5_witness :
    acquireWith (some 5) 1 false 0 lockBorrowed [⟨oracleBusy, 10⟩] =
      (AcquireOutcome.timedOut, lockBorrowed,
        [Effect.subscribe "chan", Effect.publish "chan" "acquire",
         Effect.unsubscribe "chan"]) :=
  (((C5_retry_loop_step lockBorrowed lockBorrowed
      [Effect.subscribe "chan", Effect.publish "chan" "acquire",
       Effect.unsubscribe "chan"] oracleBusy 10 0 [] (some 5) 1).2.1
    rfl).1) (by norm_num [timeoutExpired])

/-! ### Release lemmas, C6, C7, C8 -/

/-- Closed form of `release`: the guarded steps in their order. -/
theorem release_eq (s : LockState) :
    release s =
      ({ s with
          thread := none
          pubsub := none
          connection := if s.close_connection then none else s.connection },
        (if s.thread.isSome then [Effect.threadStop] else []) ++
        (if s.pubsub.isSome then [Effect.unsubscribe s.channel] else []) ++
        (if s.connection.isSome then
          Effect.publish s.channel "release" ::
            (if s.close_connection then [Effect.connClose] else [])
         else [])) := by
  obtain ⟨ch, cc, th, co, pb, tio, ci, fwl, tst, ut⟩ := s
  cases th <;> cases pb <;> cases co <;> cases cc <;> simp [release]

/-- C6: `release` performs, in order: (1) when a worker thread is
active, stop it and clear the reference; (2) when a pubsub object
exists, unsubscribe from the channel and clear it; (3) when the
connection is present, publish the "release" notification; (4) when
the lock owns the connection, close and discard it. Each step is
guarded on presence, and `release` is a total function, so a partial
or repeated release never raises. -/
theorem C6_release_steps (s : LockState) :
    release s =
      ({ s with
          thread := none
          pubsub := none
          connection := if s.close_connection then none else s.connection },
        (if s.thread.isSome then [Effect.threadStop] else []) ++
        (if s.pubsub.isSome then [Effect.unsubscribe s.channel] else []) ++
        (if s.connection.isSome then
          Effect.publish s.channel "release" ::
            (if s.close_connection then [Effect.connClose] else [])
         else [])) :=
  release_eq s

/-- C7 fails as stated: with a caller-supplied connection the
connection field survives the first `release`, so the second of two
consecutive `release` calls publishes another "release" notification —
an observable effect. -/
theorem C7_counterexample :
    (release (release lockBorrowed).1).2 =
      [Effect.publish "chan" "release"] ∧
    (release (release lockBorrowed).1).2 ≠ [] := by
  have h1 : (release (release lockBorrowed).1).2 =
      [Effect.publish "chan" "release"] := rfl
  refine ⟨h1, ?_⟩
  rw [h1]
  simp

/-- C7 (amended): the second of two consecutive `release` calls raises
no error (`release` is total), leaves the state unchanged, and performs
no worker stop, no unsubscribe and no connection close; when the lock
owned its connection, or the connection is absent, it performs no
effect at all, while with a caller-supplied connection it publishes a
second "release" notification. -/
theorem C7_amended_second_release (s : LockState) :
    ((release (release s).1).1 = (release s).1) ∧
    (∀ e ∈ (release (release s).1).2,
        e = Effect.publish s.channel "release") ∧
    (s.close_connection = true ∨ s.connection = none →
      (release (release s).1).2 = []) := by
  obtain ⟨ch, cc, th, co, pb, tio, ci, fwl, tst, ut⟩ := s
  cases th <;> cases pb <;> cases co <;> cases cc <;> simp [release]

/-- Witness for C7 (amended) at a concrete input: for a lock that owns
its connection, the second release performs no effect at all. -/
theorem C7_amended_witness :
    (release (release lockOwned).1).2 = [] :=
  (C7_amended_second_release lockOwned).2.2 (Or.inl rfl)

/-- C8: `release` emits a connection close exactly when the lock owns
its connection (`close_connection`, set at construction to whether no
connection was supplied) — a freshly constructed lock that created its
own connection closes it on release, and a lock whose
`close_connection` flag is unset never closes the connection on any
release. -/
theorem C8_close_iff_owned (ch : String) (connArg : Option Unit)
    (tio : Option ℚ) (ci : ℚ) (fwl : Bool) (tst ut : ℚ) :
    ((mkRedisLock ch connArg tio ci fwl tst ut).close_connection =
        connArg.isNone) ∧
    (Effect.connClose ∈
        (release (mkRedisLock ch connArg tio ci fwl tst ut)).2 ↔
      connArg = none) ∧
    (∀ s : LockState, s.close_connection = false →
      Effect.connClose ∉ (release s).2) := by
  refine ⟨rfl, ?_, ?_⟩
  · cases connArg with
    | none => simp [release, mkRedisLock]
    | some u => simp [release, mkRedisLock]
  · intro s hcc
    obtain ⟨ch2, cc, th, co, pb, tio2, ci2, fwl2, tst2, ut2⟩ := s
    subst hcc
    cases th <;> cases pb <;> cases co <;> simp [release]

/-- Witness for C8 at a concrete input: releasing the lock with a
caller-supplied connection closes nothing. -/
theorem C8_witness : Effect.connClose ∉ (release lockBorrowed).2 :=
  (C8_close_iff_owned "chan" (some ()) none 1 false (1/10) 1).2.2
    lockBorrowed rfl

/-! ### C9, C10 -/

/-- C9: `__enter__` returns the result of `acquire()` (which on success
hands back the lock itself, its state carried in the `success` result),
`__exit__` unconditionally calls `release()`, and `acquire` arguments
left as `None` fall back to the constructor-configured `timeout`,
`check_interval` and `fail_when_locked`. -/
theorem C9_context_manager (s : LockState) (start : ℚ)
    (steps : List Step) :
    enter s start steps = acquire s none none none start steps ∧
    acquire s none none none start steps =
      acquireWith s.timeout s.check_interval s.fail_when_locked
        start s steps ∧
    exitLock s = (release s).1 :=
  ⟨rfl, rfl, rfl⟩

/-- C10: a lock that owned and released its connection is not
reusable: the connection field is cleared to `None`, no attempt ever
rewrites the connection field, and the next `_try_acquire` on the
released instance dereferences the missing connection (the crashing
`none` result — the error branch is reachable). With a caller-supplied
connection the released instance recreates its pubsub object on the
next attempt and can be re-acquired. -/
theorem C10_not_reusable_after_release (o : Oracle) :
    ((release lockOwned).1.connection = none) ∧
    (tryAcquire (release lockOwned).1 o = none) ∧
    (∀ s s2 : LockState, ∀ b tr, tryAcquire s o = some (b, s2, tr) →
      s2.connection = s.connection) ∧
    ((release lockBorrowed).1.connection = some ()) ∧
    (accepts o.message = true → o.receivers = 1 →
      ∃ s2 tr, tryAcquire (release lockBorrowed).1 o =
        some (true, s2, tr)) := by
  refine ⟨rfl, rfl, ?_, rfl, ?_⟩
  · intro s s2 b tr h
    cases b with
    | false => exact (tryAcquire_false_fields h).2.2.1
    | true => exact tryAcquire_true_connection h
  · intro ha hr
    exact tryAcquire_success_eval rfl ha hr

/-- Witness for C10 at a concrete input: the released caller-supplied
lock really is re-acquirable on an uncontended attempt. -/
theorem C10_witness :
    ∃ s2 tr, tryAcquire (release lockBorrowed).1 oracleFree =
      some (true, s2, tr) :=
  (C10_not_reusable_after_release oracleFree).2.2.2.2 rfl rfl

/-! ### C3 -/

/-- The thread handle after a run of the acquire loop: set on success,
untouched otherwise. -/
theorem acquireWith_thread (timeout : Option ℚ) (ci : ℚ) (fwl : Bool)
    (start : ℚ) (steps : List Step) :
    ∀ s : LockState,
      ((acquireWith timeout ci fwl start s steps).1 =
          AcquireOutcome.success →
        (acquireWith timeout ci fwl start s steps).2.1.thread =
          some ()) ∧
      ((acquireWith timeout ci fwl start s steps).1 ≠
          AcquireOutcome.success →
        (acquireWith timeout ci fwl start s steps).2.1.thread =
          s.thread) := by
  induction steps with
  | nil =>
    intro s
    constructor
    · intro h; simp [acquireWith] at h
    · intro h; simp [acquireWith]
  | cons step rest ih =>
    intro s
    cases hta : tryAcquire s step.oracle with
    | none =>
      constructor
      · intro h; simp [acquireWith, hta] at h
      · intro h; simp [acquireWith, hta]
    | some trip =>
      obtain ⟨b, s2, tr⟩ := trip
      cases b with
      | true =>
        constructor
        · intro h
          simp only [acquireWith, hta]
          exact tryAcquire_true_thread hta
        · intro h
          exact absurd (by simp [acquireWith, hta]) h
      | false =>
        have hth : s2.thread = s.thread := (tryAcquire_false_fields hta).2.1
        cases fwl with
        | true =>
          constructor
          · intro h; simp [acquireWith, hta] at h
          · intro h; simp [acquireWith, hta, hth]
        | false =>
          cases hexp : timeoutExpired timeout start step.now with
          | true =>
            constructor
            · intro h; simp [acquireWith, hta, hexp] at h
            · intro h; simp [acquireWith, hta, hexp, hth]
          | false =>
            have ihs := ih s2
            constructor
            · intro h
              simp only [acquireWith, hta, hexp] at h ⊢
              simp only [Bool.false_eq_true, if_false] at h ⊢
              exact ihs.1 h
            · intro h
              simp only [acquireWith, hta, hexp] at h ⊢
              simp only [Bool.false_eq_true, if_false] at h ⊢
              exact (ihs.2 h).trans hth

/-- One-step preservation of the coupling between the concrete worker
handle and the abstract machine implemented by the code. -/
theorem step_coupling (s : LockState) (g : SpecState) (op : LockOp)
    (h : s.thread.isSome = true ↔ g = SpecState.held) :
    ((opNext s op).thread.isSome = true ↔
      ghostNext g s op = SpecState.held) := by
  cases op with
  | tryAcq o =>
    cases hta : tryAcquire s o with
    | none => simpa [opNext, ghostNext, hta] using h
    | some trip =>
      obtain ⟨b, s2, tr⟩ := trip
      cases b with
      | true =>
        simp [opNext, ghostNext, hta, tryAcquire_true_thread hta]
      | false =>
        have hth := (tryAcquire_false_fields hta).2.1
        simpa [opNext, ghostNext, hta, hth] using h
  | acq tio ci fwl start steps =>
    have hw : ((acquire s tio ci fwl start steps).1 =
          AcquireOutcome.success →
        (acquire s tio ci fwl start steps).2.1.thread = some ()) ∧
        ((acquire s tio ci fwl start steps).1 ≠
            AcquireOutcome.success →
          (acquire s tio ci fwl start steps).2.1.thread = s.thread) :=
      acquireWith_thread (tio.orElse fun _ => s.timeout)
        (ci.getD s.check_interval) (fwl.getD s.fail_when_locked)
        start steps s
    cases hout : (acquire s tio ci fwl start steps).1 with
    | success =>
      simp [opNext, ghostNext, hout, hw.1 hout]
    | failedLock =>
      have h2 := hw.2 (by rw [hout]; simp)
      simpa [opNext, ghostNext, hout, h2] using h
    | timedOut =>
      have h2 := hw.2 (by rw [hout]; simp)
      simpa [opNext, ghostNext, hout, h2] using h
    | crashed =>
      have h2 := hw.2 (by rw [hout]; simp)
      simpa [opNext, ghostNext, hout, h2] using h
    | fuelOut =>
      have h2 := hw.2 (by rw [hout]; simp)
      simpa [opNext, ghostNext, hout, h2] using h
  | rel =>
    have hrel : (release s).1.thread = none := by
      rw [release_eq]
    simp [opNext, ghostNext, hrel]

/-- The coupling holds along every operation sequence. -/
theorem runOps_coupling (ops : List LockOp) :
    ∀ (s : LockState) (g : SpecState),
      (s.thread.isSome = true ↔ g = SpecState.held) →
      ((runOps s g ops).1.thread.isSome = true ↔
        (runOps s g ops).2 = SpecState.held) := by
  induction ops with
  | nil => intro s g h; simpa [runOps] using h
  | cons op rest ih =>
    intro s g h
    rw [runOps]
    exact ih (opNext s op) (ghostNext g s op) (step_coupling s g op h)

/-- C3 fails as stated: run a successful attempt and then a failed
attempt on one instance. The worker-thread handle is still set after
the failed attempt, but the claim's state machine — where every failed
acquisition attempt leaves the lock in Released — says the lock is
Released, so the stated handle/state equivalence is violated. -/
theorem C3_counterexample :
    (claimRun lockBorrowed SpecState.released
        [LockOp.tryAcq oracleFree, LockOp.tryAcq oracleBusy]).1.thread =
      some () ∧
    (claimRun lockBorrowed SpecState.released
        [LockOp.tryAcq oracleFree, LockOp.tryAcq oracleBusy]).2 =
      SpecState.released :=
  ⟨rfl, rfl⟩

/-- C3 (amended): a lock is in exactly one of the states
Released/Held, the worker-thread handle is non-null iff the state is
Held, a successful attempt moves to Held, release moves to Released,
and a failed attempt leaves the state unchanged — in particular an
attempt that fails from Released leaves the lock Released. This holds
for every sequence of acquire/_try_acquire/release operations on one
freshly constructed instance. -/
theorem C3_amended_state_machine (ch : String) (connArg : Option Unit)
    (tio : Option ℚ) (ci : ℚ) (fwl : Bool) (tst ut : ℚ)
    (ops : List LockOp) :
    ((runOps (mkRedisLock ch connArg tio ci fwl tst ut)
        SpecState.released ops).1.thread.isSome = true ↔
      (runOps (mkRedisLock ch connArg tio ci fwl tst ut)
        SpecState.released ops).2 = SpecState.held) ∧
    (∀ g : SpecState,
      (g = SpecState.released ∨ g = SpecState.held) ∧
        ¬(g = SpecState.released ∧ g = SpecState.held)) := by
  constructor
  · exact runOps_coupling ops (mkRedisLock ch connArg tio ci fwl tst ut)
      SpecState.released (by simp [mkRedisLock])
  · intro g
    cases g <;> simp

end Portalocker
